import Mathlib

/-!
Verification of the shiitake-monitoring-system repository against its
natural-language specification.

The development shallowly embeds the parts of the repository that the claims
refer to:

- the frontend video listing logic of deploy/frontend/js/app.js,
- the playback guards of deploy/frontend/js/kvs-integration-simple.js,
- the player lifecycle of deploy/frontend/js/kvs-player.js,
- the startup scripts deploy/local/start_streaming.sh and
  deploy/local/docker-entrypoint.sh, and
- the streaming core (stream_to_kvs.py), which is not part of the available
  sources; the definitions for it are modelled from the specification text and
  are marked as such in their doc comments.

JavaScript numbers that only ever hold integral timestamps or byte sizes are
embedded as Int; machine-level overflow is not reachable for these quantities
in the source, so no modular reduction is applied.
-/

namespace Shiitake

/-! ### Frontend data model (deploy/frontend/js/app.js)

A video entry as delivered by the `/videos` API and stored in `state.videos`:
an S3 key, a last-modified timestamp and a byte size.  Dates are compared in
the source via `new Date(x) - new Date(y)`, i.e. by their epoch value, which
is embedded as `Int`. -/

structure Video where
  key : String
  last_modified : Int
  size : Int
deriving DecidableEq

/-- JavaScript `String.prototype.toLowerCase`, embedded per character. -/
def jsToLower (s : String) : String := String.mk (s.data.map Char.toLower)

/-- JavaScript `String.prototype.includes`: `needle` occurs as a contiguous
substring of `hay`. -/
def jsIncludes (hay needle : List Char) : Bool :=
  match hay with
  | [] => needle.isPrefixOf []
  | c :: t => needle.isPrefixOf (c :: t) || jsIncludes t needle

/-- The filter predicate of `filterAndSortVideos` (app.js line 174):
`video.key.toLowerCase().includes(searchTerm)`. -/
def videoMatches (searchTerm : String) (v : Video) : Bool :=
  jsIncludes (jsToLower v.key).data searchTerm.data

/-- The comparator of `filterAndSortVideos` (app.js lines 179 to 192): a
switch on the sort selector value, returning a signed number. -/
def videoCmp (sortBy : String) (a b : Video) : Int :=
  if sortBy = "newest" then b.last_modified - a.last_modified
  else if sortBy = "oldest" then a.last_modified - b.last_modified
  else if sortBy = "size-desc" then b.size - a.size
  else if sortBy = "size-asc" then a.size - b.size
  else 0

/-- Order induced by the comparator: `a` may come before `b` exactly when the
comparator is nonpositive.  `Array.prototype.sort` is a stable sort with
respect to this relation. -/
def videoLe (sortBy : String) (a b : Video) : Bool :=
  decide (videoCmp sortBy a b ≤ 0)

/-- `filterAndSortVideos` (app.js lines 169 to 193): lowercase the search
input, keep the videos whose lowercased key contains it, then stable-sort by
the selected criterion.  `searchValue` is the raw content of the search input
and `sortBy` the sort selector value. -/
def filterAndSortVideos (videos : List Video) (searchValue sortBy : String) :
    List Video :=
  let searchTerm := jsToLower searchValue
  let filtered := videos.filter (fun v => videoMatches searchTerm v)
  filtered.mergeSort (videoLe sortBy)

theorem videoLe_trans (sortBy : String) (a b c : Video)
    (h1 : videoLe sortBy a b = true) (h2 : videoLe sortBy b c = true) :
    videoLe sortBy a c = true := by
  simp only [videoLe, videoCmp, decide_eq_true_eq] at h1 h2 ⊢
  by_cases hn : sortBy = "newest" <;> by_cases ho : sortBy = "oldest" <;>
    by_cases hd : sortBy = "size-desc" <;> by_cases ha : sortBy = "size-asc" <;>
    simp_all <;> omega

theorem videoLe_total (sortBy : String) (a b : Video) :
    (videoLe sortBy a b || videoLe sortBy b a) = true := by
  simp only [videoLe, videoCmp, Bool.or_eq_true, decide_eq_true_eq]
  by_cases hn : sortBy = "newest" <;> by_cases ho : sortBy = "oldest" <;>
    by_cases hd : sortBy = "size-desc" <;> by_cases ha : sortBy = "size-asc" <;>
    simp_all <;> omega

theorem videoLe_newest (a b : Video) :
    videoLe "newest" a b = true ↔ b.last_modified ≤ a.last_modified := by
  simp [videoLe, videoCmp]

theorem videoLe_oldest (a b : Video) :
    videoLe "oldest" a b = true ↔ a.last_modified ≤ b.last_modified := by
  simp [videoLe, videoCmp]

theorem videoLe_size_desc (a b : Video) :
    videoLe "size-desc" a b = true ↔ b.size ≤ a.size := by
  simp [videoLe, videoCmp]

theorem videoLe_size_asc (a b : Video) :
    videoLe "size-asc" a b = true ↔ a.size ≤ b.size := by
  simp [videoLe, videoCmp]

theorem videoLe_default (sortBy : String) (a b : Video)
    (hn : sortBy ≠ "newest") (ho : sortBy ≠ "oldest")
    (hd : sortBy ≠ "size-desc") (ha : sortBy ≠ "size-asc") :
    videoLe sortBy a b = true := by
  simp [videoLe, videoCmp, hn, ho, hd, ha]

/-- C8: after filterAndSortVideos runs, the filtered list contains exactly the
videos whose lowercased key contains the lowercased search term (stated as a
permutation of the corresponding filter of the input list), is ordered by the
selected criterion (newest or oldest by last-modified date, size descending or
ascending), and for any unrecognized sort value it equals the filtered list in
its original relative order. -/
theorem filterAndSortVideos_correct (videos : List Video)
    (searchValue sortBy : String) :
    (filterAndSortVideos videos searchValue sortBy).Perm
      (videos.filter (fun v => videoMatches (jsToLower searchValue) v)) ∧
    (sortBy = "newest" →
      (filterAndSortVideos videos searchValue sortBy).Pairwise
        (fun a b => b.last_modified ≤ a.last_modified)) ∧
    (sortBy = "oldest" →
      (filterAndSortVideos videos searchValue sortBy).Pairwise
        (fun a b => a.last_modified ≤ b.last_modified)) ∧
    (sortBy = "size-desc" →
      (filterAndSortVideos videos searchValue sortBy).Pairwise
        (fun a b => b.size ≤ a.size)) ∧
    (sortBy = "size-asc" →
      (filterAndSortVideos videos searchValue sortBy).Pairwise
        (fun a b => a.size ≤ b.size)) ∧
    (sortBy ≠ "newest" → sortBy ≠ "oldest" → sortBy ≠ "size-desc" →
      sortBy ≠ "size-asc" →
      filterAndSortVideos videos searchValue sortBy =
        videos.filter (fun v => videoMatches (jsToLower searchValue) v)) := by
  unfold filterAndSortVideos
  refine ⟨List.mergeSort_perm _ _, ?_, ?_, ?_, ?_, ?_⟩
  · intro h
    subst h
    exact (List.sorted_mergeSort (videoLe_trans "newest")
      (videoLe_total "newest") _).imp (fun h => (videoLe_newest _ _).mp h)
  · intro h
    subst h
    exact (List.sorted_mergeSort (videoLe_trans "oldest")
      (videoLe_total "oldest") _).imp (fun h => (videoLe_oldest _ _).mp h)
  · intro h
    subst h
    exact (List.sorted_mergeSort (videoLe_trans "size-desc")
      (videoLe_total "size-desc") _).imp (fun h => (videoLe_size_desc _ _).mp h)
  · intro h
    subst h
    exact (List.sorted_mergeSort (videoLe_trans "size-asc")
      (videoLe_total "size-asc") _).imp (fun h => (videoLe_size_asc _ _).mp h)
  · intro hn ho hd ha
    exact List.mergeSort_of_sorted
      (List.pairwise_of_forall (fun a b => videoLe_default sortBy a b hn ho hd ha))

/-- Sample data used by witness theorems for the frontend claims. -/
def demoVideos : List Video :=
  [⟨"videos/Morning.mp4", 200, 50⟩, ⟨"videos/evening.mp4", 300, 20⟩,
   ⟨"thumbs/readme.txt", 100, 5⟩]

theorem filterAndSortVideos_correct_witness :
    (filterAndSortVideos demoVideos "MP4" "newest").Perm
      (demoVideos.filter (fun v => videoMatches (jsToLower "MP4") v)) ∧
    (filterAndSortVideos demoVideos "MP4" "newest").Pairwise
      (fun a b => b.last_modified ≤ a.last_modified) :=
  ⟨(filterAndSortVideos_correct demoVideos "MP4" "newest").1,
   (filterAndSortVideos_correct demoVideos "MP4" "newest").2.1 rfl⟩

/-! ### Time-range playback guards (deploy/frontend/js/kvs-integration-simple.js)

`startTimeRangePlayback` (lines 117 to 254) reads the two datetime-local
inputs, validates them, and only then issues the network request for an HLS
URL and starts playback.  The embedding covers the function up to the fetch:
everything from line 142 on is abstracted as the continuation `rest`, which
receives the UI state after the pre-fetch updates of lines 147 to 153.
`jsDate` maps an input string to its epoch value; datetime-local inputs hold
either the empty string or a valid timestamp. -/

structure TimeRangeUI where
  isPlaying : Bool
  streamMessage : String
  applyBtnDisabled : Bool
deriving DecidableEq

inductive TimeRangeOutcome where
  | alertEmptyInputs
  | alertEndNotAfterStart
  | alertStartInFuture
  | continued
deriving DecidableEq

structure TimeRangeRun where
  outcome : TimeRangeOutcome
  alerted : Bool
  fetched : Bool
  ui : TimeRangeUI
deriving DecidableEq

/-- Shallow embedding of `startTimeRangePlayback` (kvs-integration-simple.js
lines 117 to 156).  The three guards mirror lines 122, 130 and 137; each
alerts and returns before any state update or request.  Reaching `rest`
corresponds to reaching the `fetch` of line 159. -/
def startTimeRangePlayback (startVal endVal : String) (jsDate : String → Int)
    (now : Int) (ui : TimeRangeUI) (rest : TimeRangeUI → TimeRangeRun) :
    TimeRangeRun :=
  if startVal = "" ∨ endVal = "" then
    { outcome := .alertEmptyInputs, alerted := true, fetched := false, ui := ui }
  else
    let startDate := jsDate startVal
    let endDate := jsDate endVal
    if endDate ≤ startDate then
      { outcome := .alertEndNotAfterStart, alerted := true, fetched := false,
        ui := ui }
    else if now < startDate then
      { outcome := .alertStartInFuture, alerted := true, fetched := false,
        ui := ui }
    else
      rest { ui with streamMessage := "時間指定ストリームに接続中...",
                     applyBtnDisabled := true }

/-- C9: whenever the start or end input is empty, the start time is not
strictly before the end time, or the start time lies in the future,
startTimeRangePlayback performs no network request, alerts the user, and
returns with the player state unchanged. -/
theorem startTimeRangePlayback_guards (startVal endVal : String)
    (jsDate : String → Int) (now : Int) (ui : TimeRangeUI)
    (rest : TimeRangeUI → TimeRangeRun)
    (h : startVal = "" ∨ endVal = "" ∨ ¬ jsDate startVal < jsDate endVal ∨
      now < jsDate startVal) :
    (startTimeRangePlayback startVal endVal jsDate now ui rest).fetched =
      false ∧
    (startTimeRangePlayback startVal endVal jsDate now ui rest).alerted =
      true ∧
    (startTimeRangePlayback startVal endVal jsDate now ui rest).ui = ui := by
  unfold startTimeRangePlayback
  by_cases h1 : startVal = "" ∨ endVal = ""
  · simp [h1]
  · rw [if_neg h1]
    by_cases h2 : jsDate endVal ≤ jsDate startVal
    · simp [h2]
    · have h3 : now < jsDate startVal := by
        rcases h with h | h | h | h
        · exact absurd (Or.inl h) h1
        · exact absurd (Or.inr h) h1
        · omega
        · exact h
      simp [h2, h3]

theorem startTimeRangePlayback_guards_witness :
    (startTimeRangePlayback "2026-01-02T10:00" "2026-01-02T09:00"
        (fun s => if s = "2026-01-02T10:00" then 200 else 100) 1000
        ⟨false, "", false⟩ (fun u => ⟨.continued, false, true, u⟩)).fetched =
      false ∧
    (startTimeRangePlayback "2026-01-02T10:00" "2026-01-02T09:00"
        (fun s => if s = "2026-01-02T10:00" then 200 else 100) 1000
        ⟨false, "", false⟩ (fun u => ⟨.continued, false, true, u⟩)).alerted =
      true ∧
    (startTimeRangePlayback "2026-01-02T10:00" "2026-01-02T09:00"
        (fun s => if s = "2026-01-02T10:00" then 200 else 100) 1000
        ⟨false, "", false⟩ (fun u => ⟨.continued, false, true, u⟩)).ui =
      ⟨false, "", false⟩ :=
  startTimeRangePlayback_guards "2026-01-02T10:00" "2026-01-02T09:00"
    (fun s => if s = "2026-01-02T10:00" then 200 else 100) 1000
    ⟨false, "", false⟩ (fun u => ⟨.continued, false, true, u⟩)
    (Or.inr (Or.inr (Or.inl (by decide))))

/-! ### KVS player lifecycle (deploy/frontend/js/kvs-player.js)

The mutable fields of a `KVSPlayer` instance touched by `stop` and the
`playing` getter.  The HLS.js handle and the interval timer are embedded as
optional handles (`null` becomes `none`). -/

structure KVSPlayerState where
  hls : Option Nat
  videoSrc : String
  videoPaused : Bool
  refreshTimer : Option Nat
  isPlaying : Bool
  hlsUrl : Option String
deriving DecidableEq

/-- `KVSPlayer.stop` (kvs-player.js lines 112 to 129): destroy and null the
HLS handle if present, pause the video element and clear its source, clear
and null the refresh timer if present, and clear the playing flag. -/
def KVSPlayer.stop (s : KVSPlayerState) : KVSPlayerState :=
  let s1 := match s.hls with
    | some _ => { s with hls := none }
    | none => s
  let s2 := { s1 with videoPaused := true, videoSrc := "" }
  let s3 := match s2.refreshTimer with
    | some _ => { s2 with refreshTimer := none }
    | none => s2
  { s3 with isPlaying := false }

/-- The `playing` getter (kvs-player.js lines 179 to 181). -/
def KVSPlayer.playing (s : KVSPlayerState) : Bool := s.isPlaying

/-- C10: after stop returns, whatever the prior state, the hls handle is null,
the refresh timer is null and the playing getter yields false; a second stop
leaves the state identical, so stop is idempotent on the player state. -/
theorem KVSPlayer.stop_resets (s : KVSPlayerState) :
    (KVSPlayer.stop s).hls = none ∧
    (KVSPlayer.stop s).refreshTimer = none ∧
    KVSPlayer.playing (KVSPlayer.stop s) = false ∧
    KVSPlayer.stop (KVSPlayer.stop s) = KVSPlayer.stop s := by
  rcases s with ⟨hls, src, paused, timer, flag, url⟩
  cases hls <;> cases timer <;> simp [KVSPlayer.stop, KVSPlayer.playing]

/-! ### The KVS receiver (deploy/local/docker-entrypoint.sh)

The container entrypoint checks its prerequisites and, for the `kvs` command,
launches the fixed GStreamer receiver pipeline of lines 82 to 87:
tcpclientsrc, gdpdepay, an avc access-unit-aligned H.264 caps filter,
h264parse, kvssink. -/

inductive GstElement where
  | tcpclientsrc (host port : String)
  | gdpdepay
  | h264caps (format alignment : String)
  | h264parse
  | kvssink (streamName : String)
deriving DecidableEq

/-- The receiver pipeline of docker-entrypoint.sh lines 82 to 87, in element
order. -/
def kvsReceiverPipeline (host port streamName : String) : List GstElement :=
  [GstElement.tcpclientsrc host port, GstElement.gdpdepay,
   GstElement.h264caps "avc" "au", GstElement.h264parse,
   GstElement.kvssink streamName]

def isDepayloader : GstElement → Bool
  | GstElement.gdpdepay => true
  | _ => false

/-- Statement of the C5 wording, to be compared with the pipeline taken from
the source: the bytes read from the stream socket carry no additional framing
or encapsulation around the H.264 payload, i.e. the element consuming the
socket output is not a depayloader. -/
def wireIsBareH264 (p : List GstElement) : Bool :=
  match p with
  | GstElement.tcpclientsrc _ _ :: e :: _ => !(isDepayloader e)
  | _ => true

/-- Bash default expansion for a possibly unset variable: the default applies
when the variable is unset or empty. -/
def orDefault (v : Option String) (d : String) : String :=
  if v.getD "" = "" then d else v.getD ""

/-- TCP_HOST auto-detection of docker-entrypoint.sh lines 16 to 24: when the
variable is unset or empty, the Docker bridge IP is used on Linux and
host.docker.internal elsewhere. -/
def resolveTcpHost (tcpHostVar : Option String) (isLinux : Bool) : String :=
  if (tcpHostVar.getD "") = "" then
    if isLinux then "172.17.0.1" else "host.docker.internal"
  else tcpHostVar.getD ""

/-- The environment observed by docker-entrypoint.sh: which prerequisites
hold, the relevant variables, and the command argument. -/
structure EntryEnv where
  awsAccessKeySet : Bool
  awsSecretKeySet : Bool
  gstAvailable : Bool
  kvssinkAvailable : Bool
  tcpHostVar : Option String
  isLinux : Bool
  tcpPort : String
  streamName : String
  command : String
deriving DecidableEq

inductive EntryResult where
  | exited (code : Nat) (message : String)
  | launched (pipeline : List GstElement)
  | shell
deriving DecidableEq

/-- docker-entrypoint.sh: the credential check of lines 27 to 37, the
GStreamer check of lines 46 to 52, the kvssink check of lines 54 to 60, and
the command dispatch of lines 71 to 104.  `set -e` plus explicit `exit 1`
make every failed check a non-zero exit before the long-running pipeline is
started. -/
def dockerEntrypoint (env : EntryEnv) : EntryResult :=
  if ¬ env.awsAccessKeySet ∨ ¬ env.awsSecretKeySet then
    EntryResult.exited 1 "Error: AWS credentials not set"
  else if ¬ env.gstAvailable then
    EntryResult.exited 1 "Error: GStreamer not found"
  else if ¬ env.kvssinkAvailable then
    EntryResult.exited 1 "Error: kvssink plugin not found"
  else if env.command = "kvs" then
    EntryResult.launched (kvsReceiverPipeline
      (resolveTcpHost env.tcpHostVar env.isLinux) env.tcpPort env.streamName)
  else if env.command = "bash" ∨ env.command = "sh" then
    EntryResult.shell
  else
    EntryResult.exited 1 ("Unknown command: " ++ env.command)

/-- C5 counterexample: with AWS credentials, GStreamer and kvssink all
present and the kvs command, the entrypoint launches a receiver whose second
element is gdpdepay, so the socket bytes are GDP-encapsulated rather than a
bare H.264 access-unit stream. -/
theorem kvsWire_not_bare_counterexample :
    dockerEntrypoint
      { awsAccessKeySet := true, awsSecretKeySet := true, gstAvailable := true,
        kvssinkAvailable := true, tcpHostVar := none, isLinux := true,
        tcpPort := "5000", streamName := "dockerStream", command := "kvs" } =
      EntryResult.launched
        (kvsReceiverPipeline "172.17.0.1" "5000" "dockerStream") ∧
    wireIsBareH264 (kvsReceiverPipeline "172.17.0.1" "5000" "dockerStream") =
      false ∧
    (kvsReceiverPipeline "172.17.0.1" "5000" "dockerStream").get? 1 =
      some GstElement.gdpdepay := by
  decide

/-- C5 amended: every byte sequence transmitted over the stream socket is a
GDP-encapsulated H.264 stream: for any environment passing the startup checks
with the kvs command, the launched receiver reads the socket with
tcpclientsrc, immediately depayloads GDP, and only then constrains the stream
to avc-format access-unit-aligned H.264 for h264parse and kvssink; the wire
payload is therefore not bare H.264. -/
theorem kvsWire_gdp_encapsulated (env : EntryEnv)
    (hk : env.awsAccessKeySet = true) (hs : env.awsSecretKeySet = true)
    (hg : env.gstAvailable = true) (hv : env.kvssinkAvailable = true)
    (hc : env.command = "kvs") :
    ∃ p : List GstElement,
      dockerEntrypoint env = EntryResult.launched p ∧
      p.get? 0 = some (GstElement.tcpclientsrc
        (resolveTcpHost env.tcpHostVar env.isLinux) env.tcpPort) ∧
      p.get? 1 = some GstElement.gdpdepay ∧
      p.get? 2 = some (GstElement.h264caps "avc" "au") ∧
      p.get? 3 = some GstElement.h264parse ∧
      p.get? 4 = some (GstElement.kvssink env.streamName) ∧
      wireIsBareH264 p = false := by
  refine ⟨kvsReceiverPipeline (resolveTcpHost env.tcpHostVar env.isLinux)
    env.tcpPort env.streamName, ?_, rfl, rfl, rfl, rfl, rfl, rfl⟩
  simp [dockerEntrypoint, hk, hs, hg, hv, hc]

theorem kvsWire_gdp_encapsulated_witness :
    ∃ p : List GstElement,
      dockerEntrypoint
        { awsAccessKeySet := true, awsSecretKeySet := true,
          gstAvailable := true, kvssinkAvailable := true, tcpHostVar := none,
          isLinux := false, tcpPort := "5000", streamName := "dockerStream",
          command := "kvs" } = EntryResult.launched p ∧
      p.get? 0 = some (GstElement.tcpclientsrc
        (resolveTcpHost none false) "5000") ∧
      p.get? 1 = some GstElement.gdpdepay ∧
      p.get? 2 = some (GstElement.h264caps "avc" "au") ∧
      p.get? 3 = some GstElement.h264parse ∧
      p.get? 4 = some (GstElement.kvssink "dockerStream") ∧
      wireIsBareH264 p = false :=
  kvsWire_gdp_encapsulated
    { awsAccessKeySet := true, awsSecretKeySet := true, gstAvailable := true,
      kvssinkAvailable := true, tcpHostVar := none, isLinux := false,
      tcpPort := "5000", streamName := "dockerStream", command := "kvs" }
    rfl rfl rfl rfl rfl

/-! ### The host-side launcher (deploy/local/start_streaming.sh) -/

/-- The environment observed by start_streaming.sh: the optional overriding
variables of lines 7 to 16 and the two checked prerequisites. -/
structure StartEnv where
  modelPathVar : Option String
  cameraIndexVar : Option String
  widthVar : Option String
  heightVar : Option String
  confThresholdVar : Option String
  tcpHostVar : Option String
  tcpPortVar : Option String
  yoloIntervalVar : Option String
  bitrateVar : Option String
  keyframeIntervalVar : Option String
  modelFileExists : Bool
  python3Available : Bool
deriving DecidableEq

/-- The configuration block of start_streaming.sh lines 7 to 16, one shell
variable per field. -/
structure ShellConfig where
  modelPath : String
  cameraIndex : String
  width : String
  height : String
  confThreshold : String
  tcpHost : String
  tcpPort : String
  yoloInterval : String
  bitrate : String
  keyframeInterval : String
deriving DecidableEq

/-- Construction of the configuration from the startup parameters, with the
defaults of lines 7 to 16. -/
def mkShellConfig (env : StartEnv) : ShellConfig :=
  { modelPath := orDefault env.modelPathVar "../../model/best.pt",
    cameraIndex := orDefault env.cameraIndexVar "0",
    width := orDefault env.widthVar "1280",
    height := orDefault env.heightVar "720",
    confThreshold := orDefault env.confThresholdVar "0.5",
    tcpHost := orDefault env.tcpHostVar "0.0.0.0",
    tcpPort := orDefault env.tcpPortVar "5000",
    yoloInterval := orDefault env.yoloIntervalVar "3",
    bitrate := orDefault env.bitrateVar "1500",
    keyframeInterval := orDefault env.keyframeIntervalVar "90" }

/-- The stream_to_kvs.py command line of lines 69 to 79. -/
def streamToKvsArgs (cfg : ShellConfig) : List String :=
  ["--model", cfg.modelPath, "--camera", cfg.cameraIndex,
   "--width", cfg.width, "--height", cfg.height,
   "--conf", cfg.confThreshold, "--host", cfg.tcpHost,
   "--port", cfg.tcpPort, "--yolo-interval", cfg.yoloInterval,
   "--bitrate", cfg.bitrate, "--keyframe-interval", cfg.keyframeInterval]

inductive StartResult where
  | exited (code : Nat) (message : String)
  | launched (args : List String)
deriving DecidableEq

/-- start_streaming.sh: the model check of lines 28 to 32, the python3 check
of lines 37 to 40, then the stream_to_kvs.py invocation of lines 69 to 79. -/
def startStreaming (env : StartEnv) : StartResult :=
  let cfg := mkShellConfig env
  if ¬ env.modelFileExists then
    StartResult.exited 1 ("Error: Model file not found: " ++ cfg.modelPath)
  else if ¬ env.python3Available then
    StartResult.exited 1 "Error: python3 not found"
  else
    StartResult.launched (streamToKvsArgs cfg)

/-- C6: every fatal startup precondition failure (model file missing, python3
missing, AWS credentials unset, GStreamer or kvssink absent) makes the
responsible script print an Error message and exit with status 1, never
reaching the steady-state invocation. -/
theorem startupChecks_fatal (senv : StartEnv) (eenv : EntryEnv) :
    (senv.modelFileExists = false ∨ senv.python3Available = false →
      ∃ msg, startStreaming senv = StartResult.exited 1 msg ∧
        "Error".data.isPrefixOf msg.data = true) ∧
    (eenv.awsAccessKeySet = false ∨ eenv.awsSecretKeySet = false ∨
        eenv.gstAvailable = false ∨ eenv.kvssinkAvailable = false →
      ∃ msg, dockerEntrypoint eenv = EntryResult.exited 1 msg ∧
        "Error".data.isPrefixOf msg.data = true) := by
  constructor
  · intro h
    by_cases hm : senv.modelFileExists
    · have hp : ¬ senv.python3Available := by
        rcases h with h | h
        · rw [hm] at h; cases h
        · simp [h]
      exact ⟨"Error: python3 not found",
        by simp [startStreaming, hm, hp], by decide⟩
    · refine ⟨"Error: Model file not found: " ++ (mkShellConfig senv).modelPath,
        by simp [startStreaming, hm], ?_⟩
      have h2 : ("Error: Model file not found: " ++
          (mkShellConfig senv).modelPath).data =
          "Error: Model file not found: ".data ++
            (mkShellConfig senv).modelPath.data := String.data_append _ _
      rw [h2, List.isPrefixOf_iff_prefix]
      exact (List.isPrefixOf_iff_prefix.mp (by decide)).trans
        (List.prefix_append _ _)
  · intro h
    by_cases ha : eenv.awsAccessKeySet
    · by_cases hs : eenv.awsSecretKeySet
      · by_cases hg : eenv.gstAvailable
        · have hv : ¬ eenv.kvssinkAvailable := by
            rcases h with h | h | h | h <;> simp_all
          exact ⟨"Error: kvssink plugin not found",
            by simp [dockerEntrypoint, ha, hs, hg, hv], by decide⟩
        · exact ⟨"Error: GStreamer not found",
            by simp [dockerEntrypoint, ha, hs, hg], by decide⟩
      · exact ⟨"Error: AWS credentials not set",
          by simp [dockerEntrypoint, ha, hs], by decide⟩
    · exact ⟨"Error: AWS credentials not set",
        by simp [dockerEntrypoint, ha], by decide⟩

/-- Environment with every prerequisite failing, for the C6 witness. -/
def brokenStartEnv : StartEnv :=
  { modelPathVar := none, cameraIndexVar := none, widthVar := none,
    heightVar := none, confThresholdVar := none, tcpHostVar := none,
    tcpPortVar := none, yoloIntervalVar := none, bitrateVar := none,
    keyframeIntervalVar := none, modelFileExists := false,
    python3Available := true }

def brokenEntryEnv : EntryEnv :=
  { awsAccessKeySet := false, awsSecretKeySet := true, gstAvailable := true,
    kvssinkAvailable := true, tcpHostVar := none, isLinux := true,
    tcpPort := "5000", streamName := "dockerStream", command := "kvs" }

theorem startupChecks_fatal_witness :
    (∃ msg, startStreaming brokenStartEnv = StartResult.exited 1 msg ∧
      "Error".data.isPrefixOf msg.data = true) ∧
    (∃ msg, dockerEntrypoint brokenEntryEnv = EntryResult.exited 1 msg ∧
      "Error".data.isPrefixOf msg.data = true) :=
  ⟨(startupChecks_fatal brokenStartEnv brokenEntryEnv).1 (Or.inl rfl),
   (startupChecks_fatal brokenStartEnv brokenEntryEnv).2 (Or.inl rfl)⟩

/-! ### The streaming core, modelled from the spec

The pipeline implementation, stream_to_kvs.py, is referenced by
start_streaming.sh (line 69) and the repository README but is not among the
available sources.  The definitions below are therefore modelled from the
specification text (sections 3 to 5 and 4.2, 4.4, 4.5) rather than
translated from code, as their doc comments state. -/

structure Box where
  x : Int
  y : Int
  w : Int
  h : Int
  label : String
  score : ℚ
deriving DecidableEq

/-- Modelled from the spec: a Frame of spec section 3 — capture timestamp and
monotonically increasing sequence number (the pixel buffer itself plays no
role in any claim). -/
structure Frame where
  seq : Nat
  timestamp : Nat
deriving DecidableEq

/-- Modelled from the spec: a DetectionResult of spec section 3 — boxes, the
sequence number of the frame it was computed from, and a computation
timestamp. -/
structure DetectionResult where
  boxes : List Box
  seq : Nat
  computedAt : Nat
deriving DecidableEq

/-- Modelled from the spec: events seen by the DetectionScheduler — an
incoming frame to forward, or the asynchronous completion of an earlier
inference call. -/
inductive SchedEvent where
  | frame (f : Frame)
  | complete (r : DetectionResult)
deriving DecidableEq

/-- Modelled from the spec: the DetectionCache replacement rule of spec
section 4.2 — a completed result replaces the cache only if its sequence
number is newer than the current one (out-of-order completions are
discarded). -/
def updateCache (cache : Option DetectionResult) (r : DetectionResult) :
    Option DetectionResult :=
  match cache with
  | none => some r
  | some c => if c.seq < r.seq then some r else some c

/-- What the scheduler forwards for one frame: its sequence number, whether
inference was invoked for it, and the cached detection used for the
overlay. -/
structure FrameOut where
  seq : Nat
  invoked : Bool
  overlay : Option DetectionResult
deriving DecidableEq

/-- Modelled from the spec: the DetectionScheduler of spec section 4.2
(stream_to_kvs.py is not among the available sources).  Each frame is
forwarded immediately together with the cache content at that moment;
inference is submitted exactly for the frames whose sequence number is a
multiple of the detection interval; completion events update the cache by
`updateCache`. -/
def schedOutputs (interval : Nat) (cache : Option DetectionResult) :
    List SchedEvent → List FrameOut
  | [] => []
  | SchedEvent.frame f :: rest =>
      { seq := f.seq, invoked := f.seq % interval == 0, overlay := cache } ::
        schedOutputs interval cache rest
  | SchedEvent.complete r :: rest =>
      schedOutputs interval (updateCache cache r) rest

/-- The completion events of a trace, in order. -/
def completions : List SchedEvent → List DetectionResult
  | [] => []
  | SchedEvent.frame _ :: rest => completions rest
  | SchedEvent.complete r :: rest => r :: completions rest

/-- The most recent completed detection result available after the given
completions, newest sequence number winning. -/
def latestCompleted (cache : Option DetectionResult)
    (rs : List DetectionResult) : Option DetectionResult :=
  rs.foldl updateCache cache

theorem schedOutputs_append (interval : Nat) (cache : Option DetectionResult)
    (pre rest : List SchedEvent) :
    schedOutputs interval cache (pre ++ rest) =
      schedOutputs interval cache pre ++
        schedOutputs interval (latestCompleted cache (completions pre)) rest := by
  induction pre generalizing cache with
  | nil => simp [schedOutputs, completions, latestCompleted]
  | cons e t ih =>
    cases e with
    | frame f => simp [schedOutputs, completions, ih]
    | complete r => simp [schedOutputs, completions, latestCompleted, ih]

/-- C1: in any event trace, the output for a frame records an inference
invocation exactly when the sequence number is a multiple of the (positive)
detection interval, and the overlay attached to the frame is the most recent
completed detection result available at that time. -/
theorem detectionScheduler_interval (interval : Nat) (hpos : 0 < interval)
    (cache : Option DetectionResult) (pre post : List SchedEvent) (f : Frame) :
    ∃ out : FrameOut,
      schedOutputs interval cache (pre ++ SchedEvent.frame f :: post) =
        schedOutputs interval cache pre ++ out ::
          schedOutputs interval (latestCompleted cache (completions pre))
            post ∧
      (out.invoked = true ↔ interval ∣ f.seq) ∧
      out.overlay = latestCompleted cache (completions pre) := by
  refine ⟨{ seq := f.seq, invoked := f.seq % interval == 0,
            overlay := latestCompleted cache (completions pre) }, ?_, ?_, rfl⟩
  · rw [schedOutputs_append]
    simp [schedOutputs]
  · simp only [beq_iff_eq]
    exact Iff.symm Nat.dvd_iff_mod_eq_zero

/-- Sample completion used by witness theorems for the core claims. -/
def demoResult : DetectionResult := { boxes := [], seq := 1, computedAt := 5 }

theorem detectionScheduler_interval_witness :
    ∃ out : FrameOut,
      schedOutputs 3 none
          ([SchedEvent.complete demoResult] ++
            SchedEvent.frame ⟨6, 10⟩ :: []) =
        schedOutputs 3 none [SchedEvent.complete demoResult] ++ out ::
          schedOutputs 3
            (latestCompleted none
              (completions [SchedEvent.complete demoResult])) [] ∧
      (out.invoked = true ↔ 3 ∣ (6 : Nat)) ∧
      out.overlay =
        latestCompleted none (completions [SchedEvent.complete demoResult]) :=
  detectionScheduler_interval 3 (by decide) none
    [SchedEvent.complete demoResult] [] ⟨6, 10⟩

/-- A chunk of encoded output: the source frame sequence number and the
keyframe flag (spec section 3). -/
structure EncodedChunk where
  seq : Nat
  is_keyframe : Bool
deriving DecidableEq

/-- Modelled from the spec: the Encoder keyframe cadence of spec section 4.4
(stream_to_kvs.py is not among the available sources).  `count` frames have
been encoded so far; starting from a fresh encoder every
keyframe_interval-th frame is emitted as a keyframe, so a keyframe appears
at least once every keyframe_interval frames. -/
def encodeRun (keyframeInterval : Nat) (count : Nat) :
    List Frame → List EncodedChunk
  | [] => []
  | f :: fs =>
      { seq := f.seq, is_keyframe := count % keyframeInterval == 0 } ::
        encodeRun keyframeInterval (count + 1) fs

theorem encodeRun_getElem? (keyframeInterval count : Nat) (fs : List Frame)
    (n : Nat) :
    (encodeRun keyframeInterval count fs)[n]? =
      (fs[n]?).map (fun f =>
        { seq := f.seq,
          is_keyframe := (count + n) % keyframeInterval == 0 }) := by
  induction fs generalizing count n with
  | nil => simp [encodeRun]
  | cons f t ih =>
    cases n with
    | zero => simp [encodeRun]
    | succ m =>
      have harith : count + 1 + m = count + (m + 1) := by omega
      simp [encodeRun, ih, harith]

/-- C2: in every run of the encoder, every window of keyframeInterval
consecutive emitted chunks contains a keyframe (keyframeInterval positive),
so the gap between consecutive keyframes never exceeds keyframeInterval
frames. -/
theorem encoder_keyframe_window (keyframeInterval : Nat)
    (hpos : 0 < keyframeInterval) (frames : List Frame) (i : Nat)
    (hw : i + keyframeInterval ≤ frames.length) :
    ∃ j, i ≤ j ∧ j < i + keyframeInterval ∧
      ∃ c : EncodedChunk,
        (encodeRun keyframeInterval 0 frames)[j]? = some c ∧
        c.is_keyframe = true := by
  have hdm := Nat.div_add_mod i keyframeInterval
  have hrlt : i % keyframeInterval < keyframeInterval := Nat.mod_lt i hpos
  by_cases h0 : i % keyframeInterval = 0
  · -- i itself is a multiple of the interval
    refine ⟨i, le_refl i, by omega, ?_⟩
    have hj : i < frames.length := by omega
    refine ⟨{ seq := frames.get ⟨i, hj⟩ |>.seq, is_keyframe := true }, ?_, rfl⟩
    rw [encodeRun_getElem?]
    have hsome : frames[i]? = some (frames.get ⟨i, hj⟩) := by
      rw [List.getElem?_eq_getElem hj]
      rfl
    rw [hsome]
    simp [h0]
  · -- otherwise the next multiple of the interval is inside the window
    set a := keyframeInterval * (i / keyframeInterval) with ha
    refine ⟨a + keyframeInterval, by omega, by omega, ?_⟩
    have hdvd : (a + keyframeInterval) % keyframeInterval = 0 :=
      Nat.dvd_iff_mod_eq_zero.mp ⟨i / keyframeInterval + 1, by rw [ha]; ring⟩
    have hj : a + keyframeInterval < frames.length := by omega
    refine ⟨{ seq := frames.get ⟨a + keyframeInterval, hj⟩ |>.seq,
              is_keyframe := true }, ?_, rfl⟩
    rw [encodeRun_getElem?]
    have hsome : frames[a + keyframeInterval]? =
        some (frames.get ⟨a + keyframeInterval, hj⟩) := by
      rw [List.getElem?_eq_getElem hj]
      rfl
    rw [hsome]
    simp [hdvd]

/-- Sample frames used by the C2 witness. -/
def demoFrames : List Frame := [⟨0, 0⟩, ⟨1, 1⟩, ⟨2, 2⟩, ⟨3, 3⟩]

theorem encoder_keyframe_window_witness :
    ∃ j, 1 ≤ j ∧ j < 1 + 2 ∧
      ∃ c : EncodedChunk,
        (encodeRun 2 0 demoFrames)[j]? = some c ∧ c.is_keyframe = true :=
  encoder_keyframe_window 2 (by decide) demoFrames 1 (by decide)

/-! ### StreamSink and orchestrator, modelled from the spec -/

inductive SinkMode where
  | disconnected
  | connected
deriving DecidableEq

/-- Modelled from the spec: the StreamSink state of spec section 4.5 —
connection mode, current reconnect backoff delay, and the bounded outgoing
chunk buffer whose head is the in-flight chunk while connected. -/
structure SinkState where
  mode : SinkMode
  backoff : Nat
  buffer : List EncodedChunk
deriving DecidableEq

/-- Outcomes of the network operations the sink attempts. -/
inductive NetEvent where
  | connectOk
  | connectFail
  | writeOk
  | writeErr
deriving DecidableEq

/-- Modelled from the spec: the capped ceiling of the reconnect backoff
(spec section 5: increasing delays with a capped ceiling). -/
def backoffCeiling : Nat := 64

def backoffInitial : Nat := 1

/-- Modelled from the spec: the StreamSink state machine of spec section 4.5
(stream_to_kvs.py is not among the available sources).  Disconnected: a
connect attempt either succeeds, moving to Connected with the backoff reset,
or fails, doubling the backoff up to the ceiling while remaining
Disconnected.  Connected: a completed write delivers the in-flight chunk
downstream (second component); a write error drops the connection and
discards the in-flight chunk, which is never requeued. -/
def sinkStep (s : SinkState) (ev : NetEvent) :
    SinkState × Option EncodedChunk :=
  match s.mode, ev with
  | SinkMode.disconnected, NetEvent.connectOk =>
      ({ s with mode := SinkMode.connected, backoff := backoffInitial }, none)
  | SinkMode.disconnected, NetEvent.connectFail =>
      ({ s with backoff := min (s.backoff * 2) backoffCeiling }, none)
  | SinkMode.disconnected, NetEvent.writeOk => (s, none)
  | SinkMode.disconnected, NetEvent.writeErr => (s, none)
  | SinkMode.connected, NetEvent.writeOk =>
      ({ s with buffer := s.buffer.tail }, s.buffer.head?)
  | SinkMode.connected, NetEvent.writeErr =>
      ({ s with mode := SinkMode.disconnected, buffer := s.buffer.tail },
        none)
  | SinkMode.connected, NetEvent.connectOk => (s, none)
  | SinkMode.connected, NetEvent.connectFail => (s, none)

/-- C3: the StreamSink state machine — from Disconnected, a successful
connect reaches Connected and a failed connect stays Disconnected with the
backoff doubled up to the capped ceiling; from Connected, a write error
returns to Disconnected, the in-flight chunk is removed from the buffer and
nothing is delivered downstream, so the chunk is discarded rather than
retried. -/
theorem streamSink_state_machine (s : SinkState) (ev : NetEvent) :
    (s.mode = SinkMode.disconnected → ev = NetEvent.connectOk →
      (sinkStep s ev).1.mode = SinkMode.connected) ∧
    (s.mode = SinkMode.disconnected → ev = NetEvent.connectFail →
      (sinkStep s ev).1.mode = SinkMode.disconnected ∧
      (sinkStep s ev).1.backoff = min (s.backoff * 2) backoffCeiling) ∧
    (s.mode = SinkMode.connected → ev = NetEvent.writeErr →
      (sinkStep s ev).1.mode = SinkMode.disconnected ∧
      (sinkStep s ev).1.buffer = s.buffer.tail ∧
      (sinkStep s ev).2 = none) := by
  rcases s with ⟨mode, backoff, buffer⟩
  cases mode <;> cases ev <;> simp [sinkStep]

theorem streamSink_state_machine_witness :
    ((sinkStep ⟨SinkMode.disconnected, 2, []⟩ NetEvent.connectFail).1.mode =
        SinkMode.disconnected ∧
      (sinkStep ⟨SinkMode.disconnected, 2, []⟩
          NetEvent.connectFail).1.backoff = min (2 * 2) backoffCeiling) ∧
    ((sinkStep ⟨SinkMode.connected, 1, [⟨7, false⟩]⟩
        NetEvent.writeErr).1.mode = SinkMode.disconnected ∧
      (sinkStep ⟨SinkMode.connected, 1, [⟨7, false⟩]⟩
          NetEvent.writeErr).1.buffer = ([⟨7, false⟩] : List EncodedChunk).tail ∧
      (sinkStep ⟨SinkMode.connected, 1, [⟨7, false⟩]⟩ NetEvent.writeErr).2 =
        none) :=
  ⟨(streamSink_state_machine ⟨SinkMode.disconnected, 2, []⟩
      NetEvent.connectFail).2.1 rfl rfl,
   (streamSink_state_machine ⟨SinkMode.connected, 1, [⟨7, false⟩]⟩
      NetEvent.writeErr).2.2 rfl rfl⟩

/-- Modelled from the spec: the immutable PipelineConfig of spec section 3. -/
structure PipelineConfig where
  cameraIndex : Nat
  width : Nat
  height : Nat
  confThreshold : ℚ
  detectionInterval : Nat
  bitrate : Nat
  keyframeInterval : Nat
  sinkHost : String
  sinkPort : Nat
deriving DecidableEq

/-- Modelled from the spec: the configuration produced by the
start_streaming.sh defaults (lines 7 to 16). -/
def defaultPipelineConfig : PipelineConfig :=
  { cameraIndex := 0, width := 1280, height := 720, confThreshold := 1/2,
    detectionInterval := 3, bitrate := 1500, keyframeInterval := 90,
    sinkHost := "0.0.0.0", sinkPort := 5000 }

inductive PipeStatus where
  | running
  | terminated (diagnostic : String)
deriving DecidableEq

/-- Modelled from the spec: the orchestrator state of spec section 4.6 —
the immutable configuration, the run status, the next capture sequence
number, the number of frames encoded, and the sink. -/
structure PipeState where
  cfg : PipelineConfig
  status : PipeStatus
  nextSeq : Nat
  framesEncoded : Nat
  sink : SinkState
deriving DecidableEq

/-- Events driving the orchestrator: a captured frame (which is encoded and
buffered for the sink), a network outcome on the sink socket, or a fatal
capture failure. -/
inductive PipeEvent where
  | frameCaptured
  | net (ev : NetEvent)
  | captureError
deriving DecidableEq

/-- Modelled from the spec: the small fixed capacity of the internal sink
buffer (spec section 4.5). -/
def sinkBufferCapacity : Nat := 8

/-- Drop the oldest buffered non-keyframe chunk, if any. -/
def dropFirstNonKeyframe : List EncodedChunk → Option (List EncodedChunk)
  | [] => none
  | b :: t =>
      if b.is_keyframe then
        match dropFirstNonKeyframe t with
        | some t2 => some (b :: t2)
        | none => none
      else some t

/-- Modelled from the spec: sink buffer admission with the overflow policy of
spec section 4.5 — when the buffer is full, drop a buffered non-keyframe
chunk first; if all buffered chunks are keyframes, drop from the front. -/
def pushChunk (buffer : List EncodedChunk) (c : EncodedChunk) :
    List EncodedChunk :=
  if buffer.length < sinkBufferCapacity then buffer ++ [c]
  else
    match dropFirstNonKeyframe buffer with
    | some b2 => b2 ++ [c]
    | none => buffer.tail ++ [c]

theorem dropFirstNonKeyframe_length (l l2 : List EncodedChunk)
    (h : dropFirstNonKeyframe l = some l2) : l2.length + 1 = l.length := by
  induction l generalizing l2 with
  | nil => simp [dropFirstNonKeyframe] at h
  | cons b t ih =>
    by_cases hb : b.is_keyframe
    · simp only [dropFirstNonKeyframe, if_pos hb] at h
      cases ht : dropFirstNonKeyframe t with
      | none => rw [ht] at h; cases h
      | some t2 =>
        rw [ht] at h
        cases h
        simp [List.length_cons, ih t2 ht]
    · simp only [dropFirstNonKeyframe, if_neg hb] at h
      cases h
      simp

theorem pushChunk_length (buffer : List EncodedChunk) (c : EncodedChunk)
    (hb : buffer.length ≤ sinkBufferCapacity) :
    (pushChunk buffer c).length ≤ sinkBufferCapacity := by
  unfold sinkBufferCapacity at hb ⊢
  unfold pushChunk sinkBufferCapacity
  by_cases hlt : buffer.length < 8
  · rw [if_pos hlt]
    simp only [List.length_append, List.length_singleton]
    omega
  · rw [if_neg hlt]
    cases hd : dropFirstNonKeyframe buffer with
    | some b2 =>
      have hlen := dropFirstNonKeyframe_length buffer b2 hd
      simp only [List.length_append, List.length_singleton]
      omega
    | none =>
      have hlen := List.length_tail buffer
      simp only [List.length_append, List.length_singleton]
      omega

/-- Modelled from the spec: one orchestrator transition (spec sections 4.5,
4.6, 7).  A terminated pipeline stays terminated.  A captured frame is
assigned the next sequence number, encoded (keyframe cadence per the
configuration) and admitted to the sink buffer under the bounded-buffer
policy; network outcomes only drive the sink state machine; a capture error
is fatal and terminates the pipeline with a diagnostic. -/
def orchestratorStep (s : PipeState) (ev : PipeEvent) : PipeState :=
  match s.status with
  | PipeStatus.terminated _ => s
  | PipeStatus.running =>
    match ev with
    | PipeEvent.frameCaptured =>
        let chunk : EncodedChunk :=
          { seq := s.nextSeq,
            is_keyframe := s.framesEncoded % s.cfg.keyframeInterval == 0 }
        { s with nextSeq := s.nextSeq + 1,
                 framesEncoded := s.framesEncoded + 1,
                 sink := { s.sink with
                            buffer := pushChunk s.sink.buffer chunk } }
    | PipeEvent.net nev => { s with sink := (sinkStep s.sink nev).1 }
    | PipeEvent.captureError =>
        { s with status := PipeStatus.terminated "CaptureError" }

def orchestratorRun (s : PipeState) (events : List PipeEvent) : PipeState :=
  events.foldl orchestratorStep s

/-- Events that are captured frames or network outcomes, never fatal. -/
def isNetOrFrame : PipeEvent → Bool
  | PipeEvent.frameCaptured => true
  | PipeEvent.net _ => true
  | PipeEvent.captureError => false

/-- The number of captured frames in an event trace. -/
def countFrames : List PipeEvent → Nat
  | [] => 0
  | PipeEvent.frameCaptured :: t => countFrames t + 1
  | _ :: t => countFrames t

theorem sinkStep_buffer_length (s : SinkState) (ev : NetEvent) :
    ((sinkStep s ev).1.buffer).length ≤ s.buffer.length := by
  rcases s with ⟨mode, backoff, buffer⟩
  cases mode <;> cases ev <;> simp [sinkStep, List.length_tail]

/-- C4: no sequence of network outcomes mixed with captured frames ever
terminates a running pipeline; every captured frame is still sequenced and
encoded during an outage, and the sink buffer stays within its fixed
capacity, so a network error is never observable through process
termination. -/
theorem network_failures_recoverable (s : PipeState)
    (events : List PipeEvent) (hrun : s.status = PipeStatus.running)
    (hnet : ∀ e ∈ events, isNetOrFrame e = true)
    (hbuf : s.sink.buffer.length ≤ sinkBufferCapacity) :
    (orchestratorRun s events).status = PipeStatus.running ∧
    (orchestratorRun s events).nextSeq = s.nextSeq + countFrames events ∧
    (orchestratorRun s events).framesEncoded =
      s.framesEncoded + countFrames events ∧
    (orchestratorRun s events).sink.buffer.length ≤ sinkBufferCapacity := by
  induction events generalizing s with
  | nil => simp [orchestratorRun, countFrames, hrun, hbuf]
  | cons e t ih =>
    have he : isNetOrFrame e = true := hnet e (List.mem_cons_self e t)
    have ht : ∀ x ∈ t, isNetOrFrame x = true :=
      fun x hx => hnet x (List.mem_cons_of_mem e hx)
    cases e with
    | frameCaptured =>
      have hstep : orchestratorStep s PipeEvent.frameCaptured =
          { s with nextSeq := s.nextSeq + 1,
                   framesEncoded := s.framesEncoded + 1,
                   sink := { s.sink with
                              buffer := pushChunk s.sink.buffer
                                { seq := s.nextSeq,
                                  is_keyframe := s.framesEncoded %
                                    s.cfg.keyframeInterval == 0 } } } := by
        unfold orchestratorStep
        rw [hrun]
      have hrec := ih (orchestratorStep s PipeEvent.frameCaptured)
        (by rw [hstep]; exact hrun) ht
        (by rw [hstep]; exact pushChunk_length _ _ hbuf)
      simp only [orchestratorRun, List.foldl_cons] at hrec ⊢
      refine ⟨hrec.1, ?_, ?_, hrec.2.2.2⟩
      · rw [hrec.2.1, hstep]
        simp [countFrames]
        omega
      · rw [hrec.2.2.1, hstep]
        simp [countFrames]
        omega
    | net nev =>
      have hstep : orchestratorStep s (PipeEvent.net nev) =
          { s with sink := (sinkStep s.sink nev).1 } := by
        unfold orchestratorStep
        rw [hrun]
      have hrec := ih (orchestratorStep s (PipeEvent.net nev))
        (by rw [hstep]; exact hrun) ht
        (by
          rw [hstep]
          exact le_trans (sinkStep_buffer_length s.sink nev) hbuf)
      simp only [orchestratorRun, List.foldl_cons] at hrec ⊢
      refine ⟨hrec.1, ?_, ?_, hrec.2.2.2⟩
      · rw [hrec.2.1, hstep]
        simp [countFrames]
      · rw [hrec.2.2.1, hstep]
        simp [countFrames]
    | captureError => simp [isNetOrFrame] at he

/-- Running pipeline with the default configuration and an empty sink, for
witness theorems. -/
def demoPipeState : PipeState :=
  { cfg := defaultPipelineConfig, status := PipeStatus.running, nextSeq := 0,
    framesEncoded := 0,
    sink := { mode := SinkMode.disconnected, backoff := backoffInitial,
              buffer := [] } }

/-- An outage trace: frames keep arriving while connects fail and a write
errors out. -/
def demoEvents : List PipeEvent :=
  [PipeEvent.frameCaptured, PipeEvent.net NetEvent.connectFail,
   PipeEvent.frameCaptured, PipeEvent.net NetEvent.connectOk,
   PipeEvent.net NetEvent.writeErr, PipeEvent.frameCaptured]

theorem network_failures_recoverable_witness :
    (orchestratorRun demoPipeState demoEvents).status = PipeStatus.running ∧
    (orchestratorRun demoPipeState demoEvents).nextSeq =
      demoPipeState.nextSeq + countFrames demoEvents ∧
    (orchestratorRun demoPipeState demoEvents).framesEncoded =
      demoPipeState.framesEncoded + countFrames demoEvents ∧
    (orchestratorRun demoPipeState demoEvents).sink.buffer.length ≤
      sinkBufferCapacity :=
  network_failures_recoverable demoPipeState demoEvents rfl (by decide) (by decide)

/-! ### Configuration immutability (deploy/local/start_streaming.sh and the
orchestrator)

The command-level shape of start_streaming.sh: which lines assign shell
variables, which check preconditions, and where the long-running pipeline is
invoked.  Only the kind of each command matters for the immutability claim,
so echoes are collapsed to `display`. -/

inductive ShellCmd where
  | assign (name : String)
  | display
  | require (what : String)
  | pause
  | invoke (prog : String) (argNames : List String)
deriving DecidableEq

/-- start_streaming.sh as a command sequence: the configuration assignments
of lines 7 to 16, the color assignments of lines 19 to 22, the banner and
checks of lines 24 to 44, the configuration display and notes of lines 46 to
63, the pause of line 65, and the stream_to_kvs.py invocation of lines 69 to
79. -/
def startStreamingScript : List ShellCmd :=
  [ShellCmd.assign "MODEL_PATH", ShellCmd.assign "CAMERA_INDEX",
   ShellCmd.assign "WIDTH", ShellCmd.assign "HEIGHT",
   ShellCmd.assign "CONF_THRESHOLD", ShellCmd.assign "TCP_HOST",
   ShellCmd.assign "TCP_PORT", ShellCmd.assign "YOLO_INTERVAL",
   ShellCmd.assign "BITRATE", ShellCmd.assign "KEYFRAME_INTERVAL",
   ShellCmd.assign "RED", ShellCmd.assign "GREEN", ShellCmd.assign "YELLOW",
   ShellCmd.assign "NC",
   ShellCmd.display, ShellCmd.require "model file exists", ShellCmd.display,
   ShellCmd.require "python3 available", ShellCmd.display, ShellCmd.display,
   ShellCmd.pause,
   ShellCmd.invoke "python stream_to_kvs.py"
     ["--model", "--camera", "--width", "--height", "--conf", "--host",
      "--port", "--yolo-interval", "--bitrate", "--keyframe-interval"]]

def assignsVar (c : ShellCmd) (v : String) : Bool :=
  match c with
  | ShellCmd.assign n => n == v
  | _ => false

def isInvoke : ShellCmd → Bool
  | ShellCmd.invoke _ _ => true
  | _ => false

/-- The configuration fields named by the claim, as shell variables. -/
def pipelineConfigVars : List String :=
  ["CAMERA_INDEX", "WIDTH", "HEIGHT", "CONF_THRESHOLD", "YOLO_INTERVAL",
   "BITRATE", "KEYFRAME_INTERVAL", "TCP_HOST", "TCP_PORT"]

theorem orchestratorStep_cfg (s : PipeState) (ev : PipeEvent) :
    (orchestratorStep s ev).cfg = s.cfg := by
  unfold orchestratorStep
  cases hs : s.status <;> cases ev <;> simp

theorem orchestratorRun_cfg (s : PipeState) (events : List PipeEvent) :
    (orchestratorRun s events).cfg = s.cfg := by
  induction events generalizing s with
  | nil => rfl
  | cons e t ih =>
    have h1 : orchestratorRun s (e :: t) =
        orchestratorRun (orchestratorStep s e) t := rfl
    rw [h1, ih (orchestratorStep s e), orchestratorStep_cfg]

/-- C7: the pipeline configuration is constructed exactly once before
processing begins and never mutated afterwards — in start_streaming.sh every
configuration variable is assigned exactly once, strictly before the
pipeline invocation, and no orchestrator transition ever changes the
configuration carried by the pipeline state. -/
theorem pipelineConfig_immutable :
    (∀ v ∈ pipelineConfigVars,
      (startStreamingScript.filter (fun c => assignsVar c v)).length = 1 ∧
      startStreamingScript.findIdx (fun c => assignsVar c v) <
        startStreamingScript.findIdx isInvoke ∧
      startStreamingScript.findIdx isInvoke < startStreamingScript.length) ∧
    (∀ (s : PipeState) (events : List PipeEvent),
      (orchestratorRun s events).cfg = s.cfg) := by
  constructor
  · decide
  · exact orchestratorRun_cfg

theorem pipelineConfig_immutable_witness :
    ((startStreamingScript.filter
        (fun c => assignsVar c "KEYFRAME_INTERVAL")).length = 1 ∧
      startStreamingScript.findIdx
          (fun c => assignsVar c "KEYFRAME_INTERVAL") <
        startStreamingScript.findIdx isInvoke ∧
      startStreamingScript.findIdx isInvoke < startStreamingScript.length) ∧
    (orchestratorRun demoPipeState demoEvents).cfg = demoPipeState.cfg :=
  ⟨pipelineConfig_immutable.1 "KEYFRAME_INTERVAL" (by decide),
   pipelineConfig_immutable.2 demoPipeState demoEvents⟩

end Shiitake
